import Mathlib

/-!
Verification of the facilities-agent scheduling core: a shallow embedding of
the booking-context store, the availability resolver, the confirmation
detector, the booking executor and the date/time normalizer, together with
theorems settling the specification claims about them.

Conventions: Python `datetime` values are modelled as explicit records of
numerals; `datetime.now()` and the calendar/email collaborators are passed in
as explicit oracle parameters; Python exceptions in parsing code are modelled
with `Option`; Python dicts that are keyed by a field of the stored value are
modelled as lists searched by that field.
-/

namespace FacAgent

/-- A calendar date (proleptic Gregorian), mirroring the date part of a
Python `datetime`. -/
structure Date where
  year : Nat
  month : Nat
  day : Nat
deriving DecidableEq, Repr

/-- A time of day, mirroring the time part of a Python `datetime`
(microseconds are never used by the program and are omitted). -/
structure Time where
  hour : Nat
  minute : Nat
  second : Nat
deriving DecidableEq, Repr

/-- A Python `datetime` value. -/
structure DateTime where
  date : Date
  time : Time
deriving DecidableEq, Repr

def isLeap (y : Nat) : Bool :=
  (y % 4 == 0 && y % 100 != 0) || y % 400 == 0

def daysInMonth (y m : Nat) : Nat :=
  if m == 2 then (if isLeap y then 29 else 28)
  else if m == 4 || m == 6 || m == 9 || m == 11 then 30
  else 31

def validDate (y m d : Nat) : Bool :=
  1 ≤ m && m ≤ 12 && 1 ≤ d && d ≤ daysInMonth y m && 1 ≤ y && y ≤ 9999

def validTime (h mi s : Nat) : Bool :=
  h < 24 && mi < 60 && s < 60

/-- Strict lexicographic order on dates (valid dates compare as instants). -/
def Date.ltB (a b : Date) : Bool :=
  a.year < b.year ||
  (a.year == b.year && (a.month < b.month ||
    (a.month == b.month && a.day < b.day)))

def Date.leB (a b : Date) : Bool :=
  a.ltB b || a == b

def Time.ltB (a b : Time) : Bool :=
  a.hour < b.hour ||
  (a.hour == b.hour && (a.minute < b.minute ||
    (a.minute == b.minute && a.second < b.second)))

def DateTime.ltB (a b : DateTime) : Bool :=
  a.date.ltB b.date || (a.date == b.date && a.time.ltB b.time)

def DateTime.leB (a b : DateTime) : Bool :=
  a.ltB b || a == b

/-- The day after `d` (month/year rollover as in Python date arithmetic). -/
def Date.next (d : Date) : Date :=
  if d.day < daysInMonth d.year d.month then ⟨d.year, d.month, d.day + 1⟩
  else if d.month < 12 then ⟨d.year, d.month + 1, 1⟩
  else ⟨d.year + 1, 1, 1⟩

def Date.addDays : Date → Nat → Date
  | d, 0 => d
  | d, n + 1 => d.next.addDays n

/-- Python `datetime + timedelta(minutes=k)`. -/
def DateTime.addMinutes (dt : DateTime) (k : Nat) : DateTime :=
  let total := dt.time.hour * 60 + dt.time.minute + k
  ⟨dt.date.addDays (total / 1440),
   ⟨(total % 1440) / 60, total % 60, dt.time.second⟩⟩

/-- Days from the start of the year to the start of month `m`. -/
def daysBeforeMonth (y m : Nat) : Nat :=
  let base :=
    if m ≤ 1 then 0 else if m == 2 then 31 else if m == 3 then 59
    else if m == 4 then 90 else if m == 5 then 120 else if m == 6 then 151
    else if m == 7 then 181 else if m == 8 then 212 else if m == 9 then 243
    else if m == 10 then 273 else if m == 11 then 304 else 334
  if 3 ≤ m && isLeap y then base + 1 else base

/-- Proleptic-Gregorian day ordinal (0001-01-01 has ordinal 1), as in
the Python `date.toordinal` function. -/
def Date.ordinal (d : Date) : Nat :=
  365 * (d.year - 1) + (d.year - 1) / 4 - (d.year - 1) / 100 +
    (d.year - 1) / 400 + daysBeforeMonth d.year d.month + d.day

/-- Python `date.weekday()`: Monday = 0 … Sunday = 6 (0001-01-01 was a
Monday). -/
def Date.weekday (d : Date) : Nat :=
  (d.ordinal - 1) % 7

/-! ## String helpers (Python `str` operations) -/

def lowerStr (s : String) : String :=
  ⟨s.data.map Char.toLower⟩

/-- Python `x in y` on lower-cased strings: `x.lower() in y.lower()`. -/
def subStrCI (x y : String) : Bool :=
  decide (List.IsInfix (x.data.map Char.toLower) (y.data.map Char.toLower))

/-- Decidable substring test on raw character lists (Python `x in y`). -/
def inStr (x y : String) : Bool :=
  decide (List.IsInfix x.data y.data)

def containsChar (s : String) (c : Char) : Bool :=
  s.data.any (· == c)

/-- All characters are decimal digits and the string is non-empty. -/
def allDigits (s : String) : Bool :=
  !s.isEmpty && s.data.all Char.isDigit

/-- Python `str.split(sep)` for a single-character separator (all separators
used by the program are single characters). -/
def splitChar (sep : Char) : List Char → List (List Char)
  | [] => [[]]
  | c :: rest =>
    let r := splitChar sep rest
    if c == sep then [] :: r
    else
      match r with
      | h :: t => (c :: h) :: t
      | [] => [[c]]

def splitStr (s : String) (sep : Char) : List String :=
  (splitChar sep s.data).map String.mk

/-- Numeric value of an all-digit string (the non-negative fragment of
Python `int`, which is all the program feeds it). -/
def strToNat (s : String) : Option Nat :=
  if allDigits s then
    some (s.data.foldl (fun acc c => acc * 10 + (c.toNat - 48)) 0)
  else none

/-- Python `str.replace(c, "")` — drop every occurrence of the character. -/
def removeAllChar (s : String) (c : Char) : String :=
  ⟨s.data.filter (fun x => !(x == c))⟩

def pad2 (n : Nat) : String :=
  if n < 10 then "0" ++ toString n else toString n

def pad4 (n : Nat) : String :=
  if n < 10 then "000" ++ toString n
  else if n < 100 then "00" ++ toString n
  else if n < 1000 then "0" ++ toString n
  else toString n

/-- Python `datetime.isoformat()` (microseconds are always zero here). -/
def DateTime.toIso (dt : DateTime) : String :=
  pad4 dt.date.year ++ "-" ++ pad2 dt.date.month ++ "-" ++ pad2 dt.date.day ++
    "T" ++ pad2 dt.time.hour ++ ":" ++ pad2 dt.time.minute ++ ":" ++
    pad2 dt.time.second

/-! ## Date/time parsing (`datetime.fromisoformat`, `datetime.strptime`) -/

/-- Digit field of an exact width. -/
def natField (s : String) (w : Nat) : Option Nat :=
  if s.length == w && allDigits s then strToNat s else none

/-- Digit field of width 1 or 2 (as matched by the `strptime` fields `%m` and `%d`). -/
def natField12 (s : String) : Option Nat :=
  if (s.length == 1 || s.length == 2) && allDigits s then strToNat s else none

/-- Date in `date.fromisoformat` style: `YYYY-MM-DD`, zero padded. -/
def parseDateIso (s : String) : Option Date :=
  match splitStr s '-' with
  | [ys, ms, ds] =>
    match natField ys 4, natField ms 2, natField ds 2 with
    | some y, some m, some d => if validDate y m d then some ⟨y, m, d⟩ else none
    | _, _, _ => none
  | _ => none

/-- Date as in `strptime` with format `%Y-%m-%d`: the month and day fields may be 1 or 2 digits
wide. -/
def parseDateStrict (s : String) : Option Date :=
  match splitStr s '-' with
  | [ys, ms, ds] =>
    match natField ys 4, natField12 ms, natField12 ds with
    | some y, some m, some d => if validDate y m d then some ⟨y, m, d⟩ else none
    | _, _, _ => none
  | _ => none

/-- Time in `fromisoformat` style: `HH[:MM[:SS]]`, zero padded. -/
def parseTimeIso (s : String) : Option Time :=
  match splitStr s ':' with
  | [hs] =>
    match natField hs 2 with
    | some h => if validTime h 0 0 then some ⟨h, 0, 0⟩ else none
    | none => none
  | [hs, ms] =>
    match natField hs 2, natField ms 2 with
    | some h, some mi => if validTime h mi 0 then some ⟨h, mi, 0⟩ else none
    | _, _ => none
  | [hs, ms, ss] =>
    match natField hs 2, natField ms 2, natField ss 2 with
    | some h, some mi, some sec =>
      if validTime h mi sec then some ⟨h, mi, sec⟩ else none
    | _, _, _ => none
  | _ => none

/-- Python `datetime.fromisoformat`: a date, optionally followed by `T` and a time
(a bare date parses to midnight). -/
def parseDT (s : String) : Option DateTime :=
  match splitStr s 'T' with
  | [d] => (parseDateIso d).map (⟨·, ⟨0, 0, 0⟩⟩)
  | [d, t] =>
    match parseDateIso d, parseTimeIso t with
    | some dd, some tt => some ⟨dd, tt⟩
    | _, _ => none
  | _ => none

/-- Time as in `strptime` with format `%H:%M:%S` (1- or 2-digit components). -/
def parseTimeStrict (s : String) : Option Time :=
  match splitStr s ':' with
  | [hs, ms, ss] =>
    match natField12 hs, natField12 ms, natField12 ss with
    | some h, some mi, some sec =>
      if validTime h mi sec then some ⟨h, mi, sec⟩ else none
    | _, _, _ => none
  | _ => none

/-- Datetime as in `strptime` with format `%Y-%m-%d %H:%M:%S`. -/
def parseDTSpace (s : String) : Option DateTime :=
  match splitStr s ' ' with
  | [d, t] =>
    match parseDateStrict d, parseTimeStrict t with
    | some dd, some tt => some ⟨dd, tt⟩
    | _, _ => none
  | _ => none

/-! ## Data model (`app/models`) -/

inductive WorkOrderStatus
  | new | scheduled | assigned | dispatched | inProgress | onHold
  | completed | cancelled
deriving DecidableEq, Repr

inductive UrgencyLevel
  | routine | low | medium | high | urgent | emergency
deriving DecidableEq, Repr

/-- The `UrgencyLevel(value)` enum constructor on a string
(raising `ValueError` becomes `none`). -/
def urgencyOfString (s : String) : Option UrgencyLevel :=
  if s == "Routine" then some .routine
  else if s == "Low" then some .low
  else if s == "Medium" then some .medium
  else if s == "High" then some .high
  else if s == "Urgent" then some .urgent
  else if s == "Emergency" then some .emergency
  else none

structure Customer where
  customer_id : String
  full_name : String
  phone_number : String
  email_address : String
deriving DecidableEq, Repr

structure Facility where
  property_id : String
  customer_id : String
  building_name : String
  full_address : String
  area_zone : String
deriving DecidableEq, Repr

structure Technician where
  technician_id : String
  technician_name : String
  contact_number : String
  skillset : List String
  operating_zones : List String
deriving DecidableEq, Repr

structure TechnicianAvailability where
  technician_id : String
  technician_name : String
  skillset : List String
  zone : String
  available_date : DateTime
  available_start_time : DateTime
  available_end_time : DateTime
deriving DecidableEq, Repr

structure ServiceType where
  service_id : String
  service_name : String
  required_skills : List String
  default_urgency : UrgencyLevel
  estimated_duration : Nat
deriving DecidableEq, Repr

structure WorkOrder where
  work_order_id : String
  customer_id : String
  property_id : String
  service_id : String
  problem_description : String
  status : WorkOrderStatus
  urgency : UrgencyLevel
  request_date_time : DateTime
  scheduled_date_time : Option DateTime
  assigned_technician_id : Option String
deriving DecidableEq, Repr

/-- The in-memory repository held by `DataService` (dicts keyed by the id
fields of their values are modelled as lists searched on those fields). -/
structure DB where
  customers : List Customer
  facilities : List Facility
  technicians : List Technician
  availability_slots : List TechnicianAvailability
  work_orders : List WorkOrder
deriving Repr

/-- Model of `DataService.get_service_types` — the hardcoded service catalogue. -/
def getServiceTypes : List ServiceType :=
  [⟨"SVC001", "AC Routine Maintenance", ["HVAC"], .routine, 120⟩,
   ⟨"SVC002", "Emergency Plumbing Repair", ["Plumbing"], .emergency, 90⟩,
   ⟨"SVC003", "Electrical Repair", ["Electrical"], .routine, 150⟩,
   ⟨"SVC004", "General Maintenance", ["General"], .routine, 100⟩,
   ⟨"SVC005", "AC Repair", ["HVAC"], .urgent, 150⟩,
   ⟨"SVC006", "Plumbing Repair", ["Plumbing"], .medium, 120⟩,
   ⟨"SVC007", "AC Maintenance", ["HVAC"], .routine, 120⟩]

/-! ## `DataService.find_available_technicians` -/

/-- One required skill matches against the skillset of the slot: some slot skill
is in bidirectional case-insensitive substring relation with it. -/
def skillFound (skill : String) (slotSkills : List String) : Bool :=
  slotSkills.any (fun ss => subStrCI skill ss || subStrCI ss skill)

/-- Zone check as written in the source: a bidirectional substring test over
the one-element list `[slot.zone]`, or exact lower-cased equality. -/
def zoneMatch (zone slotZone : String) : Bool :=
  ([slotZone].any (fun z => subStrCI zone z || subStrCI z zone)) ||
    lowerStr slotZone == lowerStr zone

/-- The availability filter of `find_available_technicians`, applied to one
slot. -/
def slotMatches (required_skills : List String) (zone : String)
    (requested : DateTime) (duration : Nat) (slot : TechnicianAvailability) :
    Bool :=
  required_skills.all (fun skill => skillFound skill slot.skillset) &&
  zoneMatch zone slot.zone &&
  (slot.available_start_time.leB requested &&
    (requested.addMinutes duration).leB slot.available_end_time)

/-- Model of `DataService.find_available_technicians`: scan the slots in data order,
keeping those that pass the skill, zone and time-containment checks. -/
def find_available_technicians (slots : List TechnicianAvailability)
    (required_skills : List String) (zone : String) (requested : DateTime)
    (duration : Nat) : List TechnicianAvailability :=
  slots.filter (slotMatches required_skills zone requested duration)

/-! ## `book_appointment` (`app/tools/scheduling.py`) -/

/-- External effects and fresh values consumed by one `book_appointment`
call: the clock, the outcome of the calendar and email collaborators, and
the fresh identifiers. -/
structure BookOracle where
  now : DateTime
  calendarOk : Bool
  emailOk : Bool
  newWorkOrderId : String
  calendarEventId : String
deriving Repr

/-- The distinct error returns of `book_appointment`, one constructor per
`return {"status": "error", …}` site. -/
inductive BookErr
  | invalidDatetime | pastDatetime | invalidYear | serviceNotFound
  | customerNotFound | facilityNotFound | technicianNotFound
  | slotNoLongerAvailable
deriving DecidableEq, Repr

/-- The success payload of `book_appointment` (the fields of the result dict
that later code inspects). -/
structure BookSuccess where
  work_order_id : String
  calendar_event_id : String
  scheduled_dt : DateTime
  email_sent : Bool
  calendar_created : Bool
deriving DecidableEq, Repr

inductive BookResult
  | error (e : BookErr)
  | success (s : BookSuccess)
deriving DecidableEq, Repr

def BookResult.isSuccess : BookResult → Bool
  | .success _ => true
  | .error _ => false

/-- Observable side-effect trace of a booking call, in execution order. -/
inductive Event
  | savedWorkOrder (id : String)
  | calendarAttempt (ok : Bool)
  | emailAttempt (ok : Bool)
deriving DecidableEq, Repr

/-- The datetime parsing of `book_appointment`: ISO form when a `T` is
present (after stripping `Z`), else the space-separated form; on failure,
retry on the date part alone with a default time of 09:00. -/
def bookParseDT (scheduled_datetime : String) : Option DateTime :=
  let primary :=
    if containsChar scheduled_datetime 'T' then
      parseDT (removeAllChar scheduled_datetime 'Z')
    else parseDTSpace scheduled_datetime
  match primary with
  | some dt => some dt
  | none =>
    let date_part :=
      if containsChar scheduled_datetime 'T' then
        (splitStr scheduled_datetime 'T').headD ""
      else (splitStr scheduled_datetime ' ').headD ""
    (parseDateStrict date_part).map (⟨·, ⟨9, 0, 0⟩⟩)

/-- Service lookup in `book_appointment`: first catalogue entry whose name
contains the requested type (case-insensitive) or whose id equals it. -/
def findServiceForBooking (service_type : String) : Option ServiceType :=
  getServiceTypes.find?
    (fun s => subStrCI service_type s.service_name || s.service_id == service_type)

/-- Model of `book_appointment`: validate, re-check availability for the requested
technician, then create the work order and attempt the side effects
best-effort. Returns the result, the updated repository and the side-effect
trace. -/
def book_appointment (db : DB) (o : BookOracle)
    (customer_id property_id service_type problem_description : String)
    (scheduled_datetime technician_id urgency : String) :
    BookResult × DB × List Event :=
  match bookParseDT scheduled_datetime with
  | none => (.error .invalidDatetime, db, [])
  | some scheduled_dt =>
    if scheduled_dt.leB o.now then (.error .pastDatetime, db, [])
    else if scheduled_dt.date.year < 2025 || scheduled_dt.date.year > 2026 then
      (.error .invalidYear, db, [])
    else
      match findServiceForBooking service_type with
      | none => (.error .serviceNotFound, db, [])
      | some service =>
        match db.customers.find? (fun c => c.customer_id == customer_id) with
        | none => (.error .customerNotFound, db, [])
        | some _ =>
          match db.facilities.find? (fun f => f.property_id == property_id) with
          | none => (.error .facilityNotFound, db, [])
          | some facility =>
            match db.technicians.find?
                (fun t => t.technician_id == technician_id) with
            | none => (.error .technicianNotFound, db, [])
            | some _ =>
              let final_check := find_available_technicians
                db.availability_slots service.required_skills
                facility.area_zone scheduled_dt service.estimated_duration
              if !(final_check.any
                  (fun slot => slot.technician_id == technician_id)) then
                (.error .slotNoLongerAvailable, db, [])
              else
                let urgency_level := (urgencyOfString urgency).getD .medium
                let wo : WorkOrder :=
                  { work_order_id := o.newWorkOrderId,
                    customer_id := customer_id,
                    property_id := property_id,
                    service_id := service.service_id,
                    problem_description := problem_description,
                    status := .scheduled,
                    urgency := urgency_level,
                    request_date_time := o.now,
                    scheduled_date_time := some scheduled_dt,
                    assigned_technician_id := some technician_id }
                let db' := { db with work_orders := db.work_orders ++ [wo] }
                let calendar_event_id :=
                  if o.calendarOk then o.calendarEventId else "calendar_error"
                (.success
                  { work_order_id := o.newWorkOrderId,
                    calendar_event_id := calendar_event_id,
                    scheduled_dt := scheduled_dt,
                    email_sent := o.emailOk,
                    calendar_created := calendar_event_id != "calendar_error" },
                 db',
                 [.savedWorkOrder o.newWorkOrderId,
                  .calendarAttempt o.calendarOk, .emailAttempt o.emailOk])

/-! ## The confirmation pattern set of `execute_booking_from_context`

The five `re.search` patterns are word-boundary searches over the lower-cased
utterance; they are modelled by a direct scanner over the character list,
with regex backtracking rendered as a disjunction over the finite
alternative expansions. -/

def isWordChar (c : Char) : Bool :=
  c.isAlphanum || c == '_'

/-- Match a literal at the head of the text, returning the remainder. -/
def litAt : List Char → List Char → Option (List Char)
  | [], l => some l
  | _ :: _, [] => none
  | c :: v, x :: l => if x == c then litAt v l else none

/-- No word character follows (a `\b` after a word character). -/
def noWordAt : List Char → Bool
  | [] => true
  | c :: _ => !isWordChar c

/-- A word character follows (a `\b` after a non-word character). -/
def wordAt : List Char → Bool
  | [] => false
  | c :: _ => isWordChar c

/-- Boundary test before a pattern that starts with a word character. -/
def boundaryPrev : Option Char → Bool
  | none => true
  | some c => !isWordChar c

/-- One of the literal alternatives matches here, followed by a word
boundary (all these literals end in a word character). -/
def litsHere (ws : List (List Char)) (l : List Char) : Bool :=
  ws.any (fun w =>
    match litAt w l with
    | some rest => noWordAt rest
    | none => false)

/-- Model of `re.search`: try the position predicate at every position, tracking the
preceding character for the leading word boundary. -/
def scanPos (p : List Char → Bool) : Option Char → List Char → Bool
  | _, [] => false
  | prev, c :: rest =>
    (boundaryPrev prev && p (c :: rest)) || scanPos p (some c) rest

def dropSpaces : List Char → List Char
  | [] => []
  | c :: rest =>
    if c == ' ' || c == '\t' || c == '\n' || c == '\r' then dropSpaces rest
    else c :: rest

/-- The `(am|pm|p\.?m\.?|a\.?m\.?)\b` tail: a variant without the final dot
needs a non-word continuation, a variant with it needs a word one. -/
def ampmHere (l : List Char) : Bool :=
  let wordsV : List (List Char) :=
    [['a', 'm'], ['p', 'm'], ['a', '.', 'm'], ['p', '.', 'm']]
  (wordsV.any (fun v =>
    match litAt v l with
    | some rest => noWordAt rest
    | none => false)) ||
  (wordsV.any (fun v =>
    match litAt (v ++ ['.']) l with
    | some rest => wordAt rest
    | none => false))

/-- After the leading digits and optional colon: `(\d{2})?\s*` then am/pm. -/
def timeTailRest (r : List Char) : Bool :=
  (match r with
   | a :: b :: r2 => a.isDigit && b.isDigit && ampmHere (dropSpaces r2)
   | _ => false) ||
  ampmHere (dropSpaces r)

/-- The time pattern `\b(\d{1,2}):?(\d{2})?\s*(am|pm|…)\b` at this
position. -/
def timeHere (l : List Char) : Bool :=
  match l with
  | [] => false
  | c :: r =>
    c.isDigit &&
    ((match r with
      | d :: r2 =>
        d.isDigit &&
        ((match r2 with
          | ':' :: r3 => timeTailRest r3
          | _ => false) ||
         timeTailRest r2)
      | _ => false) ||
     (match r with
      | ':' :: r3 => timeTailRest r3
      | _ => false) ||
     timeTailRest r)

/-- The apostrophe character. -/
def apos : Char := Char.ofNat 39

def confirmWords : List (List Char) :=
  ["yes".data, "yeah".data, "yep".data, "sure".data, "ok".data, "okay".data,
   "confirm".data, "book".data, "schedule".data]

def dayPartWords : List (List Char) :=
  ["afternoon".data, "morning".data, "evening".data]

def acceptPhrases : List (List Char) :=
  ["that works".data, "sounds good".data, "perfect".data, "great".data,
   "done".data]

def finePhrases : List (List Char) :=
  ["that".data ++ [apos] ++ "s fine".data, "thats fine".data,
   "that".data ++ [apos] ++ "s good".data, "thats good".data, "fine".data]

/-- The `is_confirmation` test of `execute_booking_from_context`: some
confirmation pattern fires on the lower-cased utterance. -/
def is_confirmation (user_confirmation : String) : Bool :=
  let l := (lowerStr user_confirmation).data
  scanPos (litsHere confirmWords) none l ||
  scanPos timeHere none l ||
  scanPos (litsHere dayPartWords) none l ||
  scanPos (litsHere acceptPhrases) none l ||
  scanPos (litsHere finePhrases) none l

/-! ## Booking context store and `execute_booking_from_context` -/

/-- The per-session booking context record (the fields read by the
executor; optional fields are absent until the corresponding update). -/
structure BookingContext where
  customer_id : String
  property_id : String
  service_type : String
  service_id : String
  problem_description : String
  area_zone : String
  urgency : String
  preferred_technician_id : Option String
  original_requested_date : Option String
  current_preferred_date : Option String
deriving DecidableEq, Repr

/-- Python truthiness of `context.get("current_preferred_date")`. -/
def truthyOptStr : Option String → Bool
  | none => false
  | some s => !s.isEmpty

/-- The time extraction applied to `confirmed_datetime` during
reconciliation. -/
def confirmedTimeOf (confirmed_datetime : String) : Option Time :=
  if containsChar confirmed_datetime 'T' then
    (parseDT confirmed_datetime).map (·.time)
  else (parseDTSpace confirmed_datetime).map (·.time)

/-- Instant reconciliation (lines 225–242 of `booking_context.py`): when a
preferred date differing from the original request is on file, combine its
date with the time of `confirmed_datetime`; any parse failure falls back to
the literal `confirmed_datetime`. -/
def reconcileFinalDatetime (ctx : BookingContext)
    (confirmed_datetime : String) : String :=
  if truthyOptStr ctx.current_preferred_date &&
      ctx.current_preferred_date != ctx.original_requested_date then
    match ctx.current_preferred_date with
    | some p =>
      match parseDT p, confirmedTimeOf confirmed_datetime with
      | some pdt, some t => DateTime.toIso ⟨pdt.date, t⟩
      | _, _ => confirmed_datetime
    | none => confirmed_datetime
  else confirmed_datetime

/-- Whole-system state: the session-keyed context map plus the repository. -/
structure SysState where
  contexts : List (String × BookingContext)
  db : DB
deriving Repr

/-- The outcomes of `execute_booking_from_context`: the two early returns,
or the forwarded result of `book_appointment`. -/
inductive ExecResult
  | notConfirmation
  | noContext
  | booked (r : BookResult)
deriving DecidableEq, Repr

/-- Model of `execute_booking_from_context`: confirmation gate, context lookup,
instant reconciliation, booking, and context cleanup on success. -/
def execute_booking_from_context (st : SysState) (o : BookOracle)
    (session_id confirmed_datetime user_confirmation : String) :
    ExecResult × SysState × List Event :=
  if !is_confirmation user_confirmation then (.notConfirmation, st, [])
  else
    match st.contexts.find? (fun e => e.1 == session_id) with
    | none => (.noContext, st, [])
    | some (_, ctx) =>
      let final_datetime := reconcileFinalDatetime ctx confirmed_datetime
      let res := book_appointment st.db o ctx.customer_id ctx.property_id
        ctx.service_type ctx.problem_description final_datetime
        (ctx.preferred_technician_id.getD "TECH001") ctx.urgency
      let contexts' :=
        if res.1.isSuccess then
          st.contexts.filter (fun e => !(e.1 == session_id))
        else st.contexts
      (.booked res.1, ⟨contexts', res.2.1⟩, res.2.2)

/-! ## `check_technician_availability` (`app/tools/scheduling.py`) -/

/-- The error returns of `check_technician_availability`, one constructor
per `return {"status": "error", …}` site. -/
inductive CheckErr
  | invalidDateFormat | pastDate | invalidYear | serviceNotFound
  | invalidTime | pastDatetime
deriving DecidableEq, Repr

/-- One entry of `genuine_alternatives` (display-string duplicates of the
date and time fields are omitted). -/
structure AltSlot where
  date : Date
  time : Time
  technician_id : String
  technician_name : String
  available_technicians_count : Nat
deriving DecidableEq, Repr

/-- The three success/error shapes of `check_technician_availability`. -/
inductive CheckResult
  | error (e : CheckErr)
  | exactMatch (available : List TechnicianAvailability)
      (recommended : List TechnicianAvailability)
  | alternatives (alts : List AltSlot)
deriving DecidableEq, Repr

/-- Python `str.split()` (whitespace runs, empties dropped); the inputs here
use plain spaces. -/
def splitWords (s : String) : List String :=
  (splitStr s ' ').filter (fun w => !w.isEmpty)

/-- Service lookup in `check_technician_availability`: containment first,
then word-overlap partial matching. -/
def findServiceForCheck (service_type : String) : Option ServiceType :=
  match getServiceTypes.find? (fun s => subStrCI service_type s.service_name) with
  | some s => some s
  | none =>
    getServiceTypes.find? (fun s =>
      (splitWords (lowerStr service_type)).any
        (fun w => inStr w (lowerStr s.service_name)))

/-- The `preferred_time` parsing: `split(":")`, `int` on the pieces, then
`datetime.replace`, whose `ValueError` covers out-of-range fields. -/
def parseCheckTime (preferred_time : String) : Option (Nat × Nat) :=
  match splitStr preferred_time ':' with
  | [] => none
  | h :: rest =>
    match strToNat h with
    | none => none
    | some hh =>
      let mm? : Option Nat :=
        match rest with
        | [] => some 0
        | m :: _ => strToNat m
      match mm? with
      | none => none
      | some mm => if hh < 24 && mm < 60 then some (hh, mm) else none

/-- The fixed business-hour ladder probed by the alternatives search. -/
def altHours : List Nat := [9, 10, 11, 14, 15, 16, 17]

/-- One hour probe of the alternatives search: respect the 6-candidate cap,
skip past hours of today, and record a candidate from the first slot of a
successful probe. -/
def altHourStep (slots : List TechnicianAvailability) (service : ServiceType)
    (area_zone : String) (now : DateTime) (alt_date : Date)
    (acc : List AltSlot) (hour : Nat) : List AltSlot :=
  if 6 ≤ acc.length then acc
  else
    let alt_dt : DateTime := ⟨alt_date, ⟨hour, 0, 0⟩⟩
    if alt_date == now.date && alt_dt.leB now then acc
    else
      match find_available_technicians slots service.required_skills area_zone
          alt_dt service.estimated_duration with
      | [] => acc
      | best :: rest =>
        acc ++ [⟨alt_date, ⟨hour, 0, 0⟩, best.technician_id,
          best.technician_name, (best :: rest).length⟩]

/-- One day of the alternatives search: skip Fridays, then walk the hour
ladder. -/
def altDayStep (slots : List TechnicianAvailability) (service : ServiceType)
    (area_zone : String) (now : DateTime) (acc : List AltSlot)
    (alt_date : Date) : List AltSlot :=
  if 6 ≤ acc.length then acc
  else if alt_date.weekday == 4 then acc
  else altHours.foldl (altHourStep slots service area_zone now alt_date) acc

/-- The whole alternatives search: the 7 days after the request date. -/
def altSearch (slots : List TechnicianAvailability) (service : ServiceType)
    (area_zone : String) (now : DateTime) (request_date : Date) :
    List AltSlot :=
  (List.range 7).foldl
    (fun acc i =>
      altDayStep slots service area_zone now acc (request_date.addDays (i + 1)))
    []

/-- Model of `check_technician_availability`: validate the request, try the exact
instant, and fall back to the genuine-alternatives search. -/
def check_technician_availability (db : DB) (now : DateTime)
    (service_type area_zone preferred_date preferred_time : String) :
    CheckResult :=
  match parseDateStrict preferred_date with
  | none => .error .invalidDateFormat
  | some request_date =>
    if request_date.ltB now.date then .error .pastDate
    else if request_date.year < 2025 || request_date.year > 2026 then
      .error .invalidYear
    else
      match findServiceForCheck service_type with
      | none => .error .serviceNotFound
      | some service =>
        match parseCheckTime preferred_time with
        | none => .error .invalidTime
        | some (hh, mm) =>
          let request_datetime : DateTime := ⟨request_date, ⟨hh, mm, 0⟩⟩
          if request_datetime.ltB now then .error .pastDatetime
          else
            let available_slots := find_available_technicians
              db.availability_slots service.required_skills area_zone
              request_datetime service.estimated_duration
            if !available_slots.isEmpty then
              .exactMatch available_slots (available_slots.take 5)
            else
              .alternatives
                (altSearch db.availability_slots service area_zone now
                  request_date)

/-! ## `parse_user_datetime` (`app/tools/datetime_parser.py`)

Model of the date-parsing portion (the fields `parsed_date`,
`date_adjusted` and the clarification status); the independent time
extraction never touches those fields and is not modelled. -/

/-- The result fields of `parse_user_datetime` relevant to date handling
(`parsed_date` is a midnight datetime in the source; only its date part is
ever used). -/
structure ParseUD where
  parsed_date : Option Date
  date_adjusted : Bool
  needs_clarification : Bool
deriving DecidableEq, Repr

def isWS (c : Char) : Bool :=
  c == ' ' || c == '\t' || c == '\n' || c == '\r' || c == '\x0b' || c == '\x0c'

def stripStr (s : String) : String :=
  ⟨((s.data.dropWhile isWS).reverse.dropWhile isWS).reverse⟩

def firstToken (s : String) : String :=
  ⟨s.data.takeWhile (fun c => !isWS c)⟩

/-- Python `datetime.replace` with a new year, `ValueError` as `none`. -/
def replaceYear (d : Date) (y : Nat) : Option Date :=
  if validDate y d.month d.day then some ⟨y, d.month, d.day⟩ else none

/-- Anchored shape test of pattern 1 (four digits, dash, two digits, dash,
two digits, as matched at the start of the input). -/
def matchesP1 : List Char → Bool
  | a :: b :: c :: d :: e :: f :: g :: h :: i :: j :: _ =>
    a.isDigit && b.isDigit && c.isDigit && d.isDigit && e == '-' &&
    f.isDigit && g.isDigit && h == '-' && i.isDigit && j.isDigit
  | _ => false

/-- Pattern 1 handling: parse the first token as `YYYY-MM-DD`; a past date
is adjusted only when its literal year precedes the hardcoded current year
2025. -/
def p1Result (token : String) (now : DateTime) : Option Date × Bool :=
  match parseDateStrict token with
  | none => (none, false)
  | some pd =>
    if pd.ltB now.date then
      if pd.year < 2025 then
        match replaceYear pd 2025 with
        | none => (none, false)
        | some sugg =>
          if !(sugg.ltB now.date) then (some sugg, true)
          else
            match replaceYear pd 2026 with
            | none => (none, false)
            | some nxt => (some nxt, true)
      else (some pd, false)
    else (some pd, false)

/-- Take exactly `n` digits from the front. -/
def takeExactDigits : Nat → List Char → Option (String × List Char)
  | 0, l => some ("", l)
  | _ + 1, [] => none
  | n + 1, c :: l =>
    if c.isDigit then
      (takeExactDigits n l).map (fun p => (⟨c :: p.1.data⟩, p.2))
    else none

/-- After the first slash-date field: `/\d{1,2}/\d{4}` with greedy
backtracking on the middle field. -/
def slashTail (aStr : String) (l : List Char) :
    Option (String × String × String) :=
  match l with
  | '/' :: r =>
    let tryB (n : Nat) : Option (String × String × String) :=
      match takeExactDigits n r with
      | some (bStr, r2) =>
        match r2 with
        | '/' :: r3 =>
          match takeExactDigits 4 r3 with
          | some (yStr, _) => some (aStr, bStr, yStr)
          | none => none
        | _ => none
      | none => none
    match tryB 2 with
    | some res => some res
    | none => tryB 1
  | _ => none

/-- The slashed-date pattern (one or two digits, slash, one or two digits,
slash, four digits) anchored at this position. -/
def slashHere (l : List Char) : Option (String × String × String) :=
  match takeExactDigits 2 l with
  | some (aStr, r) =>
    match slashTail aStr r with
    | some res => some res
    | none =>
      match takeExactDigits 1 l with
      | some (a1, r1) => slashTail a1 r1
      | none => none
  | none =>
    match takeExactDigits 1 l with
    | some (a1, r1) => slashTail a1 r1
    | none => none

/-- Leftmost occurrence of the slashed-date pattern, as `re.search` finds
it. -/
def findSlashDate : List Char → Option (String × String × String)
  | [] => none
  | c :: rest =>
    match slashHere (c :: rest) with
    | some r => some r
    | none => findSlashDate rest

/-- Build a date from month/day/year digit strings, validity as
those of `strptime`. -/
def mkDateMDY (mStr dStr yStr : String) : Option Date :=
  match strToNat mStr, strToNat dStr, strToNat yStr with
  | some m, some d, some y => if validDate y m d then some ⟨y, m, d⟩ else none
  | _, _, _ => none

/-- Pattern 2 adjustment: pull a pre-2025 year up to 2025, then push a
still-past date into 2026; either `replace` may raise. -/
def p2Adjust (pd : Date) (now : DateTime) : Option (Date × Bool) :=
  let step1 : Option (Date × Bool) :=
    if pd.year < 2025 then (replaceYear pd 2025).map ((·, true)) else some (pd, false)
  match step1 with
  | none => none
  | some (d1, f1) =>
    if d1.ltB now.date then (replaceYear d1 2026).map ((·, true))
    else some (d1, f1)

/-- Pattern 2 handling: `MM/DD/YYYY` first, `DD/MM/YYYY` on failure. -/
def p2Result (a b y : String) (now : DateTime) : Option Date × Bool :=
  match (mkDateMDY a b y).bind (p2Adjust · now) with
  | some (d, f) => (some d, f)
  | none =>
    match (mkDateMDY b a y).bind (p2Adjust · now) with
    | some (d, f) => (some d, f)
    | none => (none, false)

/-- The month-name alternation, in the order of the source regex. -/
def monthNames : List (List Char × Nat) :=
  [("january".data, 1), ("february".data, 2), ("march".data, 3),
   ("april".data, 4), ("may".data, 5), ("june".data, 6), ("july".data, 7),
   ("august".data, 8), ("september".data, 9), ("october".data, 10),
   ("november".data, 11), ("december".data, 12),
   ("jan".data, 1), ("feb".data, 2), ("mar".data, 3), ("apr".data, 4),
   ("may".data, 5), ("jun".data, 6), ("jul".data, 7), ("aug".data, 8),
   ("sep".data, 9), ("oct".data, 10), ("nov".data, 11), ("dec".data, 12)]

def monthHere (l : List Char) : Option Nat :=
  (monthNames.find? (fun p => (litAt p.1 l).isSome)).map (·.2)

/-- Leftmost month-name occurrence (plain substring search, no word
boundaries in the source regex). -/
def findFirstMonth : List Char → Option Nat
  | [] => none
  | c :: rest =>
    match monthHere (c :: rest) with
    | some m => some m
    | none => findFirstMonth rest

/-- The first digit run of the input, up to two digits (the day-number
search of pattern 3). -/
def findFirstNum : List Char → Option Nat
  | [] => none
  | c :: rest =>
    if c.isDigit then
      match rest with
      | d :: _ =>
        if d.isDigit then strToNat (String.mk [c, d])
        else strToNat (String.mk [c])
      | [] => strToNat (String.mk [c])
    else findFirstNum rest

/-- Pattern 3 handling: month name and day number, starting from the
hardcoded year 2025, moved to 2026 if past. -/
def p3Result (m dayNum : Nat) (now : DateTime) : Option Date × Bool :=
  if validDate 2025 m dayNum then
    let pd : Date := ⟨2025, m, dayNum⟩
    if pd.ltB now.date then
      if validDate 2026 m dayNum then (some ⟨2026, m, dayNum⟩, true)
      else (none, false)
    else (some pd, false)
  else (none, false)

/-- Model of `parse_user_datetime` (date-relevant fields): the elif chain over the
recognized date patterns, lower-cased and stripped input. -/
def parse_user_datetime (user_input : String) (now : DateTime) : ParseUD :=
  let s := lowerStr (stripStr user_input)
  let l := s.data
  let pda : Option Date × Bool :=
    if matchesP1 l then p1Result (firstToken s) now
    else
      match findSlashDate l with
      | some (a, b, y) => p2Result a b y now
      | none =>
        match findFirstMonth l with
        | some m =>
          match findFirstNum l with
          | some dnum => p3Result m dnum now
          | none => (none, false)
        | none =>
          if inStr "tomorrow" s then (some (now.date.addDays 1), false)
          else if inStr "today" s then (some now.date, false)
          else if inStr "next week" s then
            (some (now.date.addDays (7 - now.date.weekday)), false)
          else if inStr "next month" s then
            (some (if now.date.month == 12 then ⟨2026, 1, 1⟩
              else ⟨2025, now.date.month + 1, 1⟩), false)
          else (none, false)
  { parsed_date := pda.1, date_adjusted := pda.2,
    needs_clarification := pda.1.isNone }

/-! ## Derived observers -/

def ExecResult.isSuccess : ExecResult → Bool
  | .booked r => r.isSuccess
  | _ => false

/-- The `genuine_alternatives` list of a check result (empty otherwise). -/
def altsOf : CheckResult → List AltSlot
  | .alternatives alts => alts
  | _ => []

/-! ## The matching rule as worded by the specification (§4.2) -/

/-- Spec-side matching predicate: bidirectional case-insensitive substring
containment on every required skill and on the zone, plus time
containment of the whole job duration. -/
def specSlotMatches (required_skills : List String) (zone : String)
    (requested : DateTime) (duration : Nat)
    (slot : TechnicianAvailability) : Bool :=
  required_skills.all (fun skill => skillFound skill slot.skillset) &&
  (subStrCI zone slot.zone || subStrCI slot.zone zone) &&
  (slot.available_start_time.leB requested &&
    (requested.addMinutes duration).leB slot.available_end_time)

theorem subStrCI_of_lower_eq (x y : String) (h : lowerStr y = lowerStr x) :
    subStrCI x y = true := by
  have hd : x.data.map Char.toLower = y.data.map Char.toLower := by
    have := congrArg String.data h
    simpa [lowerStr] using this.symm
  simp [subStrCI, hd, List.IsInfix]
  exact ⟨[], [], by simp⟩

theorem zoneMatch_eq (zone sz : String) :
    zoneMatch zone sz = (subStrCI zone sz || subStrCI sz zone) := by
  unfold zoneMatch
  rcases h : (lowerStr sz == lowerStr zone) with _ | _
  · simp [h]
  · have he : lowerStr sz = lowerStr zone := by simpa using h
    have h1 : subStrCI zone sz = true := subStrCI_of_lower_eq zone sz he
    simp [h, h1]

theorem slotMatches_eq (required_skills : List String) (zone : String)
    (requested : DateTime) (duration : Nat) :
    slotMatches required_skills zone requested duration =
      specSlotMatches required_skills zone requested duration := by
  funext slot
  unfold slotMatches specSlotMatches
  rw [zoneMatch_eq]

/-- A slot whose only listed skill is the literal `"ac"`. -/
def acOnlySlot : TechnicianAvailability :=
  ⟨"TECH777", "Sara Khan", ["ac"], "Dubai Marina",
   ⟨⟨2025, 6, 5⟩, ⟨0, 0, 0⟩⟩, ⟨⟨2025, 6, 5⟩, ⟨9, 0, 0⟩⟩,
   ⟨⟨2025, 6, 5⟩, ⟨18, 0, 0⟩⟩⟩

/-- C4 counterexample: the claim says required skill `"HVAC"` against slot
skill `"ac"` yields no match, but `"ac"` is a substring of `"hvac"`, so the
bidirectional test fires and the slot is returned. -/
theorem find_available_hvac_ac_cex :
    skillFound "HVAC" ["ac"] = true ∧
    find_available_technicians [acOnlySlot] ["HVAC"] "Dubai Marina"
      ⟨⟨2025, 6, 5⟩, ⟨10, 0, 0⟩⟩ 60 = [acOnlySlot] := by
  constructor
  · decide
  · rfl

/-- C4 (amended): `find_available_technicians` returns exactly the slots
satisfying the matching rule of the spec — bidirectional case-insensitive
substring containment for every required skill and for the zone, and time
containment of the full duration — in original data order; the example
pair `"HVAC"`/`"ac"` matches (substring one way), and
`"AC Maintenance"`/`"Maintenance"` matches. -/
theorem find_available_matching_rule :
    (∀ (slots : List TechnicianAvailability) (required_skills : List String)
      (zone : String) (requested : DateTime) (duration : Nat),
      find_available_technicians slots required_skills zone requested
          duration =
        slots.filter (specSlotMatches required_skills zone requested
          duration)) ∧
    skillFound "HVAC" ["ac"] = true ∧
    skillFound "AC Maintenance" ["Maintenance"] = true := by
  refine ⟨fun slots required_skills zone requested duration => ?_, ?_, ?_⟩
  · unfold find_available_technicians
    rw [slotMatches_eq]
  · decide
  · decide

/-! ## Concrete demonstration fixtures -/

/-- An availability slot for technician TECH001 on 2025-06-05, 09:00–18:00,
zone Dubai Marina, HVAC skill. -/
def demoSlot : TechnicianAvailability :=
  ⟨"TECH001", "Ali Hassan", ["HVAC"], "Dubai Marina",
   ⟨⟨2025, 6, 5⟩, ⟨0, 0, 0⟩⟩, ⟨⟨2025, 6, 5⟩, ⟨9, 0, 0⟩⟩,
   ⟨⟨2025, 6, 5⟩, ⟨18, 0, 0⟩⟩⟩

def demoDB : DB :=
  ⟨[⟨"CUST1", "Omar Farouk", "+971501234567", "omar@example.com"⟩],
   [⟨"PROP1", "CUST1", "Marina Tower", "Marina Tower, Dubai Marina, Dubai",
     "Dubai Marina"⟩],
   [⟨"TECH001", "Ali Hassan", "+971507654321", ["HVAC"], ["Dubai Marina"]⟩],
   [demoSlot], []⟩

/-- A context in which the customer accepted the alternative date
2025-06-05 after originally asking for 2025-06-02T14:00. -/
def demoCtx : BookingContext :=
  ⟨"CUST1", "PROP1", "AC Maintenance", "SVC007", "AC not cooling",
   "Dubai Marina", "Medium", some "TECH001", some "2025-06-02T14:00",
   some "2025-06-05"⟩

def demoOracle : BookOracle :=
  ⟨⟨⟨2025, 6, 1⟩, ⟨8, 0, 0⟩⟩, true, true, "WO_DEMO1", "EVT_DEMO1"⟩

def demoState : SysState := ⟨[("sess1", demoCtx)], demoDB⟩

/-- Same context but no technician was ever recorded. -/
def demoCtxNoTech : BookingContext :=
  { demoCtx with preferred_technician_id := none }

/-- Same context but the stored preferred date is prose that
`datetime.fromisoformat` rejects. -/
def demoCtxBadDate : BookingContext :=
  { demoCtx with current_preferred_date := some "June 5th" }

/-! ## C6 -/

/-- C6: an utterance on which no confirmation pattern fires makes
`execute_booking_from_context` return the not-a-confirmation result,
leaving the state untouched and performing no side effects. -/
theorem execute_not_confirmation_no_effects (st : SysState) (o : BookOracle)
    (session_id confirmed_datetime user_confirmation : String)
    (h : is_confirmation user_confirmation = false) :
    execute_booking_from_context st o session_id confirmed_datetime
      user_confirmation = (.notConfirmation, st, []) := by
  unfold execute_booking_from_context
  simp [h]

theorem execute_not_confirmation_no_effects_witness :
    is_confirmation "hello there" = false ∧
    execute_booking_from_context demoState demoOracle "sess1"
      "2025-06-02T14:00" "hello there" = (.notConfirmation, demoState, []) :=
  ⟨rfl,
   execute_not_confirmation_no_effects demoState demoOracle "sess1"
     "2025-06-02T14:00" "hello there" rfl⟩

/-! ## C1 -/

/-- C1: with a preferred date on file that differs from the original
request and that parses, a confirming utterance books at the instant
combining the preferred date with the time portion of
`confirmed_datetime` — not at the literal `confirmed_datetime`. -/
theorem execute_books_at_reconciled_instant
    (st : SysState) (o : BookOracle)
    (session_id confirmed_datetime user_confirmation : String)
    (ctx : BookingContext) (p : String) (pdt : DateTime) (t : Time)
    (hfind : st.contexts.find? (fun e => e.1 == session_id) =
      some (session_id, ctx))
    (hconf : is_confirmation user_confirmation = true)
    (hp : ctx.current_preferred_date = some p)
    (hne : p.isEmpty = false)
    (hdiff : (ctx.current_preferred_date !=
      ctx.original_requested_date) = true)
    (hparse : parseDT p = some pdt)
    (htime : confirmedTimeOf confirmed_datetime = some t) :
    execute_booking_from_context st o session_id confirmed_datetime
      user_confirmation =
      (let res := book_appointment st.db o ctx.customer_id ctx.property_id
        ctx.service_type ctx.problem_description
        (DateTime.toIso ⟨pdt.date, t⟩)
        (ctx.preferred_technician_id.getD "TECH001") ctx.urgency
       (.booked res.1,
        ⟨if res.1.isSuccess then
            st.contexts.filter (fun e => !(e.1 == session_id))
          else st.contexts, res.2.1⟩, res.2.2)) := by
  have hrec : reconcileFinalDatetime ctx confirmed_datetime =
      DateTime.toIso ⟨pdt.date, t⟩ := by
    unfold reconcileFinalDatetime
    rw [hp] at hdiff ⊢
    simp [truthyOptStr, hne, hdiff, hparse, htime]
  unfold execute_booking_from_context
  rw [hfind]
  simp only [hconf, Bool.not_true, Bool.false_eq_true, if_false]
  rw [hrec]

/-- C1 witness: the concrete scenario of the spec; the second conjunct also
computes the resulting work order, scheduled at 2025-06-05T14:00. -/
theorem execute_books_at_reconciled_instant_witness :
    demoState.contexts.find? (fun e => e.1 == "sess1") =
        some ("sess1", demoCtx) ∧
    is_confirmation "yes that works" = true ∧
    demoCtx.current_preferred_date = some "2025-06-05" ∧
    (execute_booking_from_context demoState demoOracle "sess1"
        "2025-06-02T14:00" "yes that works" =
      (let res := book_appointment demoState.db demoOracle
        demoCtx.customer_id demoCtx.property_id demoCtx.service_type
        demoCtx.problem_description
        (DateTime.toIso ⟨⟨2025, 6, 5⟩, ⟨14, 0, 0⟩⟩)
        (demoCtx.preferred_technician_id.getD "TECH001") demoCtx.urgency
       (.booked res.1,
        ⟨if res.1.isSuccess then
            demoState.contexts.filter (fun e => !(e.1 == "sess1"))
          else demoState.contexts, res.2.1⟩, res.2.2))) ∧
    (execute_booking_from_context demoState demoOracle "sess1"
        "2025-06-02T14:00" "yes that works").2.1.db.work_orders.map
          (fun wo => wo.scheduled_date_time) =
      [some ⟨⟨2025, 6, 5⟩, ⟨14, 0, 0⟩⟩] :=
  ⟨rfl, rfl, rfl,
   execute_books_at_reconciled_instant demoState demoOracle "sess1"
     "2025-06-02T14:00" "yes that works" demoCtx "2025-06-05"
     ⟨⟨2025, 6, 5⟩, ⟨0, 0, 0⟩⟩ ⟨14, 0, 0⟩ rfl rfl rfl rfl rfl rfl rfl,
   rfl⟩

/-! ## C9 -/

/-- C9: a context that never received an offered technician does not make
the executor fail — it books with the hardcoded default technician id
`"TECH001"`, the final availability re-check still applying inside
`book_appointment`. -/
theorem execute_defaults_to_TECH001
    (st : SysState) (o : BookOracle)
    (session_id confirmed_datetime user_confirmation : String)
    (ctx : BookingContext)
    (hfind : st.contexts.find? (fun e => e.1 == session_id) =
      some (session_id, ctx))
    (hconf : is_confirmation user_confirmation = true)
    (hpref : ctx.preferred_technician_id = none) :
    execute_booking_from_context st o session_id confirmed_datetime
      user_confirmation =
      (let res := book_appointment st.db o ctx.customer_id ctx.property_id
        ctx.service_type ctx.problem_description
        (reconcileFinalDatetime ctx confirmed_datetime) "TECH001"
        ctx.urgency
       (.booked res.1,
        ⟨if res.1.isSuccess then
            st.contexts.filter (fun e => !(e.1 == session_id))
          else st.contexts, res.2.1⟩, res.2.2)) := by
  unfold execute_booking_from_context
  rw [hfind]
  simp only [hconf, Bool.not_true, Bool.false_eq_true, if_false]
  rw [hpref]
  rfl

theorem execute_defaults_to_TECH001_witness :
    demoCtxNoTech.preferred_technician_id = none ∧
    is_confirmation "yes that works" = true ∧
    (execute_booking_from_context ⟨[("sess1", demoCtxNoTech)], demoDB⟩
        demoOracle "sess1" "2025-06-02T14:00" "yes that works" =
      (let res := book_appointment demoDB demoOracle
        demoCtxNoTech.customer_id demoCtxNoTech.property_id
        demoCtxNoTech.service_type demoCtxNoTech.problem_description
        (reconcileFinalDatetime demoCtxNoTech "2025-06-02T14:00") "TECH001"
        demoCtxNoTech.urgency
       (.booked res.1,
        ⟨if res.1.isSuccess then
            [("sess1", demoCtxNoTech)].filter (fun e => !(e.1 == "sess1"))
          else [("sess1", demoCtxNoTech)], res.2.1⟩, res.2.2))) ∧
    ((execute_booking_from_context ⟨[("sess1", demoCtxNoTech)], demoDB⟩
        demoOracle "sess1" "2025-06-02T14:00"
        "yes that works").2.1.db.work_orders.map
          (fun wo => wo.assigned_technician_id) = [some "TECH001"]) :=
  ⟨rfl, rfl,
   execute_defaults_to_TECH001 ⟨[("sess1", demoCtxNoTech)], demoDB⟩
     demoOracle "sess1" "2025-06-02T14:00" "yes that works" demoCtxNoTech
     rfl rfl rfl,
   rfl⟩

/-! ## C10 -/

/-- C10: when reconciliation applies but parsing the preferred date or the
confirmed datetime fails, the executor silently books at the literal
`confirmed_datetime` instead of returning an error. -/
theorem execute_reconcile_failure_falls_back
    (st : SysState) (o : BookOracle)
    (session_id confirmed_datetime user_confirmation : String)
    (ctx : BookingContext) (p : String)
    (hfind : st.contexts.find? (fun e => e.1 == session_id) =
      some (session_id, ctx))
    (hconf : is_confirmation user_confirmation = true)
    (hp : ctx.current_preferred_date = some p)
    (hne : p.isEmpty = false)
    (hdiff : (ctx.current_preferred_date !=
      ctx.original_requested_date) = true)
    (hfail : parseDT p = none ∨ confirmedTimeOf confirmed_datetime = none) :
    execute_booking_from_context st o session_id confirmed_datetime
      user_confirmation =
      (let res := book_appointment st.db o ctx.customer_id ctx.property_id
        ctx.service_type ctx.problem_description confirmed_datetime
        (ctx.preferred_technician_id.getD "TECH001") ctx.urgency
       (.booked res.1,
        ⟨if res.1.isSuccess then
            st.contexts.filter (fun e => !(e.1 == session_id))
          else st.contexts, res.2.1⟩, res.2.2)) := by
  have hrec : reconcileFinalDatetime ctx confirmed_datetime =
      confirmed_datetime := by
    unfold reconcileFinalDatetime
    rw [hp] at hdiff ⊢
    rcases hfail with hfail | hfail
    · simp [truthyOptStr, hne, hdiff, hfail]
    · rcases hq : parseDT p with _ | q
      · simp [truthyOptStr, hne, hdiff, hq]
      · simp [truthyOptStr, hne, hdiff, hq, hfail]
  unfold execute_booking_from_context
  rw [hfind]
  simp only [hconf, Bool.not_true, Bool.false_eq_true, if_false]
  rw [hrec]

theorem execute_reconcile_failure_falls_back_witness :
    parseDT "June 5th" = none ∧
    is_confirmation "yes that works" = true ∧
    (execute_booking_from_context ⟨[("sess1", demoCtxBadDate)], demoDB⟩
        demoOracle "sess1" "2025-06-02T14:00" "yes that works" =
      (let res := book_appointment demoDB demoOracle
        demoCtxBadDate.customer_id demoCtxBadDate.property_id
        demoCtxBadDate.service_type demoCtxBadDate.problem_description
        "2025-06-02T14:00"
        (demoCtxBadDate.preferred_technician_id.getD "TECH001")
        demoCtxBadDate.urgency
       (.booked res.1,
        ⟨if res.1.isSuccess then
            [("sess1", demoCtxBadDate)].filter (fun e => !(e.1 == "sess1"))
          else [("sess1", demoCtxBadDate)], res.2.1⟩, res.2.2))) :=
  ⟨rfl, rfl,
   execute_reconcile_failure_falls_back ⟨[("sess1", demoCtxBadDate)], demoDB⟩
     demoOracle "sess1" "2025-06-02T14:00" "yes that works" demoCtxBadDate
     "June 5th" rfl rfl rfl rfl rfl (Or.inl rfl)⟩

/-! ## C2 -/

/-- C2: reaching the final availability re-check with the requested
technician absent from `find_available_technicians` fails with the
slot-no-longer-available error and leaves the repository untouched; and
every successful call appends exactly one work order, whose assigned
technician is the requested `technician_id` — never a substitute. -/
theorem book_appointment_no_silent_substitution :
    (∀ (db : DB) (o : BookOracle)
      (customer_id property_id service_type problem_description : String)
      (scheduled_datetime technician_id urgency : String)
      (scheduled_dt : DateTime) (service : ServiceType) (cust : Customer)
      (facility : Facility) (tech : Technician),
      bookParseDT scheduled_datetime = some scheduled_dt →
      scheduled_dt.leB o.now = false →
      (scheduled_dt.date.year < 2025 || scheduled_dt.date.year > 2026)
        = false →
      findServiceForBooking service_type = some service →
      db.customers.find? (fun c => c.customer_id == customer_id)
        = some cust →
      db.facilities.find? (fun f => f.property_id == property_id)
        = some facility →
      db.technicians.find? (fun t => t.technician_id == technician_id)
        = some tech →
      (find_available_technicians db.availability_slots
          service.required_skills facility.area_zone scheduled_dt
          service.estimated_duration).any
        (fun slot => slot.technician_id == technician_id) = false →
      book_appointment db o customer_id property_id service_type
        problem_description scheduled_datetime technician_id urgency =
        (.error .slotNoLongerAvailable, db, [])) ∧
    (∀ (db : DB) (o : BookOracle)
      (customer_id property_id service_type problem_description : String)
      (scheduled_datetime technician_id urgency : String),
      (book_appointment db o customer_id property_id service_type
          problem_description scheduled_datetime technician_id
          urgency).1.isSuccess = true →
      ∃ wo : WorkOrder,
        (book_appointment db o customer_id property_id service_type
            problem_description scheduled_datetime technician_id
            urgency).2.1.work_orders = db.work_orders ++ [wo] ∧
        wo.assigned_technician_id = some technician_id) := by
  constructor
  · intro db o customer_id property_id service_type problem_description
      scheduled_datetime technician_id urgency scheduled_dt service cust
      facility tech h1 h2 h3 h4 h5 h6 h7 h8
    unfold book_appointment
    rw [h1]
    simp only [h2, h3, Bool.false_eq_true, if_false]
    rw [h4, h5, h6, h7]
    simp only [h8, Bool.not_false, if_true]
  · intro db o customer_id property_id service_type problem_description
      scheduled_datetime technician_id urgency
    unfold book_appointment
    simp only []
    repeat' split
    all_goals intro h
    all_goals
      first
      | exact ⟨_, rfl, rfl⟩
      | (simp [BookResult.isSuccess] at h)

/-- C2 witness: with no availability at all the booking fails without a
work order; the demonstration booking succeeds with TECH001 assigned. -/
theorem book_appointment_no_silent_substitution_witness :
    (book_appointment { demoDB with availability_slots := [] } demoOracle
      "CUST1" "PROP1" "AC Maintenance" "AC not cooling"
      "2025-06-05T14:00:00" "TECH001" "Medium" =
      (.error .slotNoLongerAvailable,
        { demoDB with availability_slots := [] }, [])) ∧
    (∃ wo : WorkOrder,
      (book_appointment demoDB demoOracle "CUST1" "PROP1" "AC Maintenance"
          "AC not cooling" "2025-06-05T14:00:00" "TECH001"
          "Medium").2.1.work_orders = demoDB.work_orders ++ [wo] ∧
      wo.assigned_technician_id = some "TECH001") :=
  ⟨book_appointment_no_silent_substitution.1
     { demoDB with availability_slots := [] } demoOracle "CUST1" "PROP1"
     "AC Maintenance" "AC not cooling" "2025-06-05T14:00:00" "TECH001"
     "Medium" ⟨⟨2025, 6, 5⟩, ⟨14, 0, 0⟩⟩
     ⟨"SVC007", "AC Maintenance", ["HVAC"], .routine, 120⟩
     ⟨"CUST1", "Omar Farouk", "+971501234567", "omar@example.com"⟩
     ⟨"PROP1", "CUST1", "Marina Tower", "Marina Tower, Dubai Marina, Dubai",
       "Dubai Marina"⟩
     ⟨"TECH001", "Ali Hassan", "+971507654321", ["HVAC"], ["Dubai Marina"]⟩
     rfl rfl rfl rfl rfl rfl rfl rfl,
   book_appointment_no_silent_substitution.2 demoDB demoOracle "CUST1"
     "PROP1" "AC Maintenance" "AC not cooling" "2025-06-05T14:00:00"
     "TECH001" "Medium" rfl⟩

/-! ## C8 -/

/-- C8: once every validation and the final availability re-check pass, the
work order (status Scheduled) is appended and the side-effect trace places
its persistence before the calendar and email attempts; either collaborator
failing merely flips the corresponding result flag while the call still
succeeds and the work order stays. -/
theorem book_appointment_work_order_before_side_effects
    (db : DB) (o : BookOracle)
    (customer_id property_id service_type problem_description : String)
    (scheduled_datetime technician_id urgency : String)
    (scheduled_dt : DateTime) (service : ServiceType) (cust : Customer)
    (facility : Facility) (tech : Technician)
    (h1 : bookParseDT scheduled_datetime = some scheduled_dt)
    (h2 : scheduled_dt.leB o.now = false)
    (h3 : (scheduled_dt.date.year < 2025 || scheduled_dt.date.year > 2026)
      = false)
    (h4 : findServiceForBooking service_type = some service)
    (h5 : db.customers.find? (fun c => c.customer_id == customer_id)
      = some cust)
    (h6 : db.facilities.find? (fun f => f.property_id == property_id)
      = some facility)
    (h7 : db.technicians.find? (fun t => t.technician_id == technician_id)
      = some tech)
    (h8 : (find_available_technicians db.availability_slots
        service.required_skills facility.area_zone scheduled_dt
        service.estimated_duration).any
      (fun slot => slot.technician_id == technician_id) = true)
    (h9 : (o.calendarEventId == "calendar_error") = false) :
    book_appointment db o customer_id property_id service_type
      problem_description scheduled_datetime technician_id urgency =
      (.success
        { work_order_id := o.newWorkOrderId,
          calendar_event_id :=
            if o.calendarOk then o.calendarEventId else "calendar_error",
          scheduled_dt := scheduled_dt,
          email_sent := o.emailOk,
          calendar_created := o.calendarOk },
       { db with work_orders := db.work_orders ++
          [{ work_order_id := o.newWorkOrderId,
             customer_id := customer_id,
             property_id := property_id,
             service_id := service.service_id,
             problem_description := problem_description,
             status := .scheduled,
             urgency := (urgencyOfString urgency).getD .medium,
             request_date_time := o.now,
             scheduled_date_time := some scheduled_dt,
             assigned_technician_id := some technician_id }] },
       [.savedWorkOrder o.newWorkOrderId, .calendarAttempt o.calendarOk,
        .emailAttempt o.emailOk]) := by
  unfold book_appointment
  rw [h1]
  simp only [h2, h3, Bool.false_eq_true, if_false]
  rw [h4, h5, h6, h7]
  simp only [h8, Bool.not_true, Bool.false_eq_true, if_false]
  rcases hc : o.calendarOk with _ | _ <;>
    simp [hc, h9, bne]

/-- C8 witness: with both collaborators failing the call still succeeds,
the work order is kept, and both flags are false. -/
theorem book_appointment_work_order_before_side_effects_witness :
    book_appointment demoDB ⟨⟨⟨2025, 6, 1⟩, ⟨8, 0, 0⟩⟩, false, false,
      "WO_DEMO2", "EVT_DEMO2"⟩ "CUST1" "PROP1" "AC Maintenance"
      "AC not cooling" "2025-06-05T14:00:00" "TECH001" "Medium" =
      (.success
        { work_order_id := "WO_DEMO2", calendar_event_id := "calendar_error",
          scheduled_dt := ⟨⟨2025, 6, 5⟩, ⟨14, 0, 0⟩⟩,
          email_sent := false, calendar_created := false },
       { demoDB with work_orders :=
          [{ work_order_id := "WO_DEMO2", customer_id := "CUST1",
             property_id := "PROP1", service_id := "SVC007",
             problem_description := "AC not cooling",
             status := .scheduled, urgency := .medium,
             request_date_time := ⟨⟨2025, 6, 1⟩, ⟨8, 0, 0⟩⟩,
             scheduled_date_time := some ⟨⟨2025, 6, 5⟩, ⟨14, 0, 0⟩⟩,
             assigned_technician_id := some "TECH001" }] },
       [.savedWorkOrder "WO_DEMO2", .calendarAttempt false,
        .emailAttempt false]) := by
  have := book_appointment_work_order_before_side_effects demoDB
    ⟨⟨⟨2025, 6, 1⟩, ⟨8, 0, 0⟩⟩, false, false, "WO_DEMO2", "EVT_DEMO2"⟩
    "CUST1" "PROP1" "AC Maintenance" "AC not cooling" "2025-06-05T14:00:00"
    "TECH001" "Medium" ⟨⟨2025, 6, 5⟩, ⟨14, 0, 0⟩⟩
    ⟨"SVC007", "AC Maintenance", ["HVAC"], .routine, 120⟩
    ⟨"CUST1", "Omar Farouk", "+971501234567", "omar@example.com"⟩
    ⟨"PROP1", "CUST1", "Marina Tower", "Marina Tower, Dubai Marina, Dubai",
      "Dubai Marina"⟩
    ⟨"TECH001", "Ali Hassan", "+971507654321", ["HVAC"], ["Dubai Marina"]⟩
    rfl rfl rfl rfl rfl rfl rfl rfl rfl
  simpa using this

/-! ## C7 -/

theorem exec_success_contexts (st : SysState) (o : BookOracle)
    (session_id confirmed_datetime user_confirmation : String)
    (h : (execute_booking_from_context st o session_id confirmed_datetime
      user_confirmation).1.isSuccess = true) :
    (execute_booking_from_context st o session_id confirmed_datetime
      user_confirmation).2.1.contexts =
      st.contexts.filter (fun e => !(e.1 == session_id)) := by
  revert h
  unfold execute_booking_from_context
  split
  · intro h; simp [ExecResult.isSuccess] at h
  · split
    · intro h; simp [ExecResult.isSuccess] at h
    · simp only []
      intro h
      simp only [ExecResult.isSuccess] at h
      simp [h]

theorem find?_filter_self_none (l : List (String × BookingContext))
    (sid : String) :
    (l.filter (fun e => !(e.1 == sid))).find? (fun e => e.1 == sid)
      = none := by
  rw [List.find?_eq_none]
  intro x hx
  have hpred := (List.mem_filter.mp hx).2
  simp at hpred ⊢
  exact hpred

/-- C7: after a successful execution for a session, the stored context is
gone, and a second confirming call for the same session fails with the
no-context error without touching the state (in particular, no second work
order is created). -/
theorem execute_second_call_no_context (st : SysState) (o o2 : BookOracle)
    (session_id cdt utter cdt2 utter2 : String)
    (h1 : (execute_booking_from_context st o session_id cdt
      utter).1.isSuccess = true)
    (h2 : is_confirmation utter2 = true) :
    (execute_booking_from_context st o session_id cdt
        utter).2.1.contexts.find? (fun e => e.1 == session_id) = none ∧
    execute_booking_from_context
        (execute_booking_from_context st o session_id cdt utter).2.1 o2
        session_id cdt2 utter2 =
      (.noContext,
       (execute_booking_from_context st o session_id cdt utter).2.1, []) := by
  have hc := exec_success_contexts st o session_id cdt utter h1
  have hnone : (execute_booking_from_context st o session_id cdt
      utter).2.1.contexts.find? (fun e => e.1 == session_id) = none := by
    rw [hc]
    exact find?_filter_self_none _ _
  refine ⟨hnone, ?_⟩
  generalize hS : (execute_booking_from_context st o session_id cdt
    utter).2.1 = S at hnone ⊢
  unfold execute_booking_from_context
  rw [hnone]
  simp [h2]

theorem execute_second_call_no_context_witness :
    (execute_booking_from_context demoState demoOracle "sess1"
      "2025-06-02T14:00" "yes that works").1.isSuccess = true ∧
    is_confirmation "sounds good" = true ∧
    ((execute_booking_from_context demoState demoOracle "sess1"
        "2025-06-02T14:00" "yes that works").2.1.contexts.find?
          (fun e => e.1 == "sess1") = none ∧
     execute_booking_from_context
        (execute_booking_from_context demoState demoOracle "sess1"
          "2025-06-02T14:00" "yes that works").2.1 demoOracle
        "sess1" "2025-06-02T14:00" "sounds good" =
      (.noContext,
       (execute_booking_from_context demoState demoOracle "sess1"
         "2025-06-02T14:00" "yes that works").2.1, [])) :=
  ⟨rfl, rfl,
   execute_second_call_no_context demoState demoOracle demoOracle "sess1"
     "2025-06-02T14:00" "yes that works" "2025-06-02T14:00" "sounds good"
     rfl rfl⟩

/-! ## C5 -/

/-- C5 (code evaluation at the failing input): with the clock at
2025-10-12, the literal past date `2025-01-01` is returned unchanged —
`parsed_date` is a past instant and the date-adjusted flag stays unset —
because the rollover branch only fires when the literal year precedes the
hardcoded current year 2025. -/
theorem parse_user_datetime_past_accepted_silently :
    parse_user_datetime "2025-01-01" ⟨⟨2025, 10, 12⟩, ⟨9, 0, 0⟩⟩ =
      { parsed_date := some ⟨2025, 1, 1⟩, date_adjusted := false,
        needs_clarification := false } ∧
    Date.ltB ⟨2025, 1, 1⟩ ⟨2025, 10, 12⟩ = true :=
  ⟨rfl, rfl⟩

/-! ## C3 -/

/-- An availability window too narrow for the requested instant but wide
enough for two morning probes the next day: 2025-06-03, 09:00–12:00. -/
def narrowSlot : TechnicianAvailability :=
  ⟨"TECH001", "Ali Hassan", ["HVAC"], "Dubai Marina",
   ⟨⟨2025, 6, 3⟩, ⟨0, 0, 0⟩⟩, ⟨⟨2025, 6, 3⟩, ⟨9, 0, 0⟩⟩,
   ⟨⟨2025, 6, 3⟩, ⟨12, 0, 0⟩⟩⟩

def narrowDB : DB := ⟨[], [], [], [narrowSlot], []⟩

/-- C3 counterexample: the alternatives search records one candidate per
successful hour probe, so a single free day yields several alternatives on
the same date — the returned dates are not pairwise distinct. -/
theorem check_alternatives_duplicate_dates_cex :
    ¬ List.Pairwise (fun a b => a.date ≠ b.date)
      (altsOf (check_technician_availability narrowDB
        ⟨⟨2025, 6, 1⟩, ⟨8, 0, 0⟩⟩ "AC Maintenance" "Dubai Marina"
        "2025-06-02" "14:00")) := by
  decide

/-- The probe points visited by the alternatives search, in order: the
seven days after the request date with Fridays dropped, each crossed with
the fixed hour ladder. -/
def altProbePoints (request_date : Date) : List (Date × Nat) :=
  ((((List.range 7).map (fun i => request_date.addDays (i + 1))).filter
    (fun d => !(d.weekday == 4))).flatMap
    (fun d => altHours.map (fun h => (d, h))))

/-- A probe point succeeds when the availability search at it is
non-empty. -/
def altProbeOk (slots : List TechnicianAvailability) (service : ServiceType)
    (area_zone : String) (p : Date × Nat) : Bool :=
  !(find_available_technicians slots service.required_skills area_zone
    ⟨p.1, ⟨p.2, 0, 0⟩⟩ service.estimated_duration).isEmpty

/-- The alternative recorded for a successful probe point. -/
def mkAltSlot (slots : List TechnicianAvailability) (service : ServiceType)
    (area_zone : String) (p : Date × Nat) : AltSlot :=
  match find_available_technicians slots service.required_skills area_zone
    ⟨p.1, ⟨p.2, 0, 0⟩⟩ service.estimated_duration with
  | [] => ⟨p.1, ⟨p.2, 0, 0⟩, "", "", 0⟩
  | best :: rest =>
    ⟨p.1, ⟨p.2, 0, 0⟩, best.technician_id, best.technician_name,
     (best :: rest).length⟩

theorem Date.ltB_iff (a b : Date) :
    a.ltB b = true ↔ (a.year < b.year ∨ (a.year = b.year ∧
      (a.month < b.month ∨ (a.month = b.month ∧ a.day < b.day)))) := by
  unfold Date.ltB
  simp

theorem Date.ltB_trans {a b c : Date} (h1 : a.ltB b = true)
    (h2 : b.ltB c = true) : a.ltB c = true := by
  rw [Date.ltB_iff] at h1 h2 ⊢
  omega

theorem Date.ltB_next (d : Date) : d.ltB d.next = true := by
  unfold Date.next
  by_cases h1 : d.day < daysInMonth d.year d.month
  · simp [if_pos h1, Date.ltB_iff]
  · by_cases h2 : d.month < 12
    · simp [if_neg h1, if_pos h2, Date.ltB_iff]
    · simp [if_neg h1, if_neg h2, Date.ltB_iff]

theorem Date.ltB_addDays (d : Date) (n : Nat) :
    d.ltB (d.addDays (n + 1)) = true := by
  induction n generalizing d with
  | zero => simpa [Date.addDays] using Date.ltB_next d
  | succ k ih =>
    have h2 := ih d.next
    have he : d.addDays (k + 2) = d.next.addDays (k + 1) := rfl
    rw [he]
    exact Date.ltB_trans (Date.ltB_next d) h2

theorem addDays_ne_of_not_lt (request now : Date)
    (h : request.ltB now = false) (i : Nat) :
    ((request.addDays (i + 1)) == now) = false := by
  have hlt := Date.ltB_addDays request i
  rw [beq_eq_false_iff_ne]
  intro heq
  rw [heq, h] at hlt
  cases hlt

theorem altProbePoints_fst (request : Date) (p : Date × Nat)
    (hp : p ∈ altProbePoints request) :
    ∃ i, i < 7 ∧ p.1 = request.addDays (i + 1) := by
  unfold altProbePoints at hp
  rcases List.mem_flatMap.mp hp with ⟨d, hd, hpd⟩
  rcases List.mem_map.mp hpd with ⟨h, _, rfl⟩
  have hd1 := (List.mem_filter.mp hd).1
  rcases List.mem_map.mp hd1 with ⟨i, hi, rfl⟩
  exact ⟨i, List.mem_range.mp hi, rfl⟩

theorem altHour_foldl_of_full (slots : List TechnicianAvailability)
    (service : ServiceType) (area_zone : String) (now : DateTime)
    (alt_date : Date) (acc : List AltSlot) (hs : List Nat)
    (h : 6 ≤ acc.length) :
    hs.foldl (altHourStep slots service area_zone now alt_date) acc
      = acc := by
  induction hs with
  | nil => rfl
  | cons a t ih =>
    rw [List.foldl_cons]
    have hstep : altHourStep slots service area_zone now alt_date acc a
        = acc := by
      unfold altHourStep
      rw [if_pos h]
    rw [hstep]
    exact ih

/-- The hours actually walked on a given day: none on a Friday. -/
def dayHours (d : Date) : List Nat :=
  if d.weekday == 4 then [] else altHours

theorem altDayStep_eq (slots : List TechnicianAvailability)
    (service : ServiceType) (area_zone : String) (now : DateTime)
    (acc : List AltSlot) (d : Date) :
    altDayStep slots service area_zone now acc d =
      (dayHours d).foldl (altHourStep slots service area_zone now d) acc := by
  unfold altDayStep dayHours
  by_cases h6 : 6 ≤ acc.length
  · rw [if_pos h6]
    by_cases hf : (d.weekday == 4) = true
    · rw [if_pos hf, List.foldl_nil]
    · rw [if_neg hf]
      exact (altHour_foldl_of_full slots service area_zone now d acc
        altHours h6).symm
  · rw [if_neg h6]
    by_cases hf : (d.weekday == 4) = true
    · rw [if_pos hf, if_pos hf, List.foldl_nil]
    · rw [if_neg hf, if_neg hf]

theorem foldl_flatMap_eq {α β γ : Type} (f : β → α → β) (g : γ → List α)
    (l : List γ) (init : β) :
    (l.flatMap g).foldl f init =
      l.foldl (fun acc c => (g c).foldl f acc) init := by
  induction l generalizing init with
  | nil => rfl
  | cons a t ih => simp [List.flatMap_cons, List.foldl_append, ih]

theorem flatMap_dayHours_eq (ds : List Date) :
    ds.flatMap (fun d => (dayHours d).map (fun h => (d, h))) =
      (ds.filter (fun d => !(d.weekday == 4))).flatMap
        (fun d => altHours.map (fun h => (d, h))) := by
  induction ds with
  | nil => rfl
  | cons a t ih =>
    rw [List.flatMap_cons, List.filter_cons, ih]
    by_cases hf : a.weekday = 4
    · have hd : dayHours a = [] := by simp [dayHours, hf]
      simp [hd, hf, List.flatMap_cons]
    · have hd : dayHours a = altHours := by simp [dayHours, hf]
      simp [hd, hf, List.flatMap_cons]

/-- The capped scan over probe points records exactly the first six
successful probes, in order. -/
theorem pair_foldl_eq_take (slots : List TechnicianAvailability)
    (service : ServiceType) (area_zone : String) (now : DateTime)
    (ps : List (Date × Nat)) :
    ∀ acc : List AltSlot, (∀ p ∈ ps, (p.1 == now.date) = false) →
    ps.foldl
      (fun acc p => altHourStep slots service area_zone now p.1 acc p.2)
      acc =
      acc ++ (((ps.filter (altProbeOk slots service area_zone)).map
        (mkAltSlot slots service area_zone)).take (6 - acc.length)) := by
  induction ps with
  | nil => intro acc _; simp
  | cons p t ih =>
    intro acc hns
    rw [List.foldl_cons]
    have hp := hns p (List.mem_cons_self _ _)
    have ht : ∀ q ∈ t, (q.1 == now.date) = false :=
      fun q hq => hns q (List.mem_cons_of_mem _ hq)
    by_cases h6 : 6 ≤ acc.length
    · have h0 : 6 - acc.length = 0 := by omega
      have hstep : altHourStep slots service area_zone now p.1 acc p.2
          = acc := by
        unfold altHourStep
        rw [if_pos h6]
      rw [hstep, ih acc ht, h0]
      simp
    · have harr : 6 - acc.length = (6 - (acc.length + 1)) + 1 := by omega
      have hstep : altHourStep slots service area_zone now p.1 acc p.2 =
          (match find_available_technicians slots service.required_skills
            area_zone ⟨p.1, ⟨p.2, 0, 0⟩⟩ service.estimated_duration with
           | [] => acc
           | best :: rest =>
             acc ++ [⟨p.1, ⟨p.2, 0, 0⟩, best.technician_id,
               best.technician_name, (best :: rest).length⟩]) := by
        unfold altHourStep
        rw [if_neg h6]
        simp only [hp, Bool.false_and, Bool.false_eq_true, if_false]
      cases hfa : find_available_technicians slots service.required_skills
          area_zone ⟨p.1, ⟨p.2, 0, 0⟩⟩ service.estimated_duration with
      | nil =>
        rw [hfa] at hstep
        have hok : altProbeOk slots service area_zone p = false := by
          unfold altProbeOk
          rw [hfa]
          rfl
        rw [hstep, ih acc ht, List.filter_cons]
        simp [hok]
      | cons best rest =>
        rw [hfa] at hstep
        have hok : altProbeOk slots service area_zone p = true := by
          unfold altProbeOk
          rw [hfa]
          rfl
        have hmk : mkAltSlot slots service area_zone p =
            ⟨p.1, ⟨p.2, 0, 0⟩, best.technician_id, best.technician_name,
             (best :: rest).length⟩ := by
          unfold mkAltSlot
          rw [hfa]
        rw [hstep, ih _ ht, List.filter_cons]
        simp only [hok, if_true, List.map_cons, hmk, List.length_append,
          List.length_cons, List.length_nil]
        rw [harr, List.take_succ_cons]
        simp [List.append_assoc]

/-- The alternatives fold, rephrased declaratively: the first six
successful probe points in day-then-hour order. -/
theorem altSearch_eq (slots : List TechnicianAvailability)
    (service : ServiceType) (area_zone : String) (now : DateTime)
    (request_date : Date)
    (hreq : request_date.ltB now.date = false) :
    altSearch slots service area_zone now request_date =
      (((altProbePoints request_date).filter
        (altProbeOk slots service area_zone)).map
        (mkAltSlot slots service area_zone)).take 6 := by
  unfold altSearch
  rw [show (List.range 7).foldl
      (fun acc i => altDayStep slots service area_zone now acc
        (request_date.addDays (i + 1))) [] =
      ((List.range 7).map (fun i => request_date.addDays (i + 1))).foldl
        (fun acc d => altDayStep slots service area_zone now acc d) []
    from (List.foldl_map _ _ _ _).symm]
  have hfun : (fun (acc : List AltSlot) (d : Date) =>
      altDayStep slots service area_zone now acc d) =
      (fun acc d => ((dayHours d).map (fun h => (d, h))).foldl
        (fun a p => altHourStep slots service area_zone now p.1 a p.2)
        acc) := by
    funext acc d
    rw [altDayStep_eq, List.foldl_map]
  rw [hfun, ← foldl_flatMap_eq, flatMap_dayHours_eq]
  have hns : ∀ p ∈ altProbePoints request_date,
      (p.1 == now.date) = false := by
    intro p hp
    rcases altProbePoints_fst request_date p hp with ⟨i, _, hpi⟩
    rw [hpi]
    exact addDays_ne_of_not_lt request_date now.date hreq i
  have hmain := pair_foldl_eq_take slots service area_zone now
    (altProbePoints request_date) [] hns
  simpa [altProbePoints] using hmain

/-- C3 (amended): when the exact-time search is empty, the alternatives
search records one candidate per successful hourly probe — walking the
seven following days (Fridays skipped) and the hour ladder 9, 10, 11, 14,
15, 16, 17 in order — stopping after six candidates; several alternatives
may therefore share a date, and each candidate carries the first slot and
the count of its own probe. -/
theorem check_alternatives_per_probe
    (db : DB) (now : DateTime)
    (service_type area_zone preferred_date preferred_time : String)
    (request_date : Date) (service : ServiceType) (hh mm : Nat)
    (h1 : parseDateStrict preferred_date = some request_date)
    (h2 : request_date.ltB now.date = false)
    (h3 : (request_date.year < 2025 || request_date.year > 2026) = false)
    (h4 : findServiceForCheck service_type = some service)
    (h5 : parseCheckTime preferred_time = some (hh, mm))
    (h6 : DateTime.ltB ⟨request_date, ⟨hh, mm, 0⟩⟩ now = false)
    (h7 : find_available_technicians db.availability_slots
      service.required_skills area_zone ⟨request_date, ⟨hh, mm, 0⟩⟩
      service.estimated_duration = []) :
    check_technician_availability db now service_type area_zone
      preferred_date preferred_time =
      .alternatives ((((altProbePoints request_date).filter
        (altProbeOk db.availability_slots service area_zone)).map
        (mkAltSlot db.availability_slots service area_zone)).take 6) ∧
    (altsOf (check_technician_availability db now service_type area_zone
      preferred_date preferred_time)).length ≤ 6 := by
  have hmain : check_technician_availability db now service_type area_zone
      preferred_date preferred_time =
      .alternatives ((((altProbePoints request_date).filter
        (altProbeOk db.availability_slots service area_zone)).map
        (mkAltSlot db.availability_slots service area_zone)).take 6) := by
    unfold check_technician_availability
    rw [h1]
    simp only [h2, h3, Bool.false_eq_true, if_false]
    rw [h4, h5]
    simp only [h6, Bool.false_eq_true, if_false]
    rw [h7]
    simp only [List.isEmpty_nil, Bool.not_true, Bool.false_eq_true,
      if_false]
    rw [altSearch_eq db.availability_slots service area_zone now
      request_date h2]
  refine ⟨hmain, ?_⟩
  rw [hmain]
  exact List.length_take_le 6 _

/-- C3 witness for the amended theorem: the narrow-window scenario yields
exactly the two same-day candidates predicted by the probe-point
characterization. -/
theorem check_alternatives_per_probe_witness :
    parseDateStrict "2025-06-02" = some ⟨2025, 6, 2⟩ ∧
    findServiceForCheck "AC Maintenance" =
      some ⟨"SVC007", "AC Maintenance", ["HVAC"], .routine, 120⟩ ∧
    (check_technician_availability narrowDB ⟨⟨2025, 6, 1⟩, ⟨8, 0, 0⟩⟩
        "AC Maintenance" "Dubai Marina" "2025-06-02" "14:00" =
      .alternatives ((((altProbePoints ⟨2025, 6, 2⟩).filter
        (altProbeOk narrowDB.availability_slots
          ⟨"SVC007", "AC Maintenance", ["HVAC"], .routine, 120⟩
          "Dubai Marina")).map
        (mkAltSlot narrowDB.availability_slots
          ⟨"SVC007", "AC Maintenance", ["HVAC"], .routine, 120⟩
          "Dubai Marina")).take 6)) ∧
    (altsOf (check_technician_availability narrowDB
        ⟨⟨2025, 6, 1⟩, ⟨8, 0, 0⟩⟩ "AC Maintenance" "Dubai Marina"
        "2025-06-02" "14:00")).length ≤ 6 :=
  ⟨rfl, rfl,
   (check_alternatives_per_probe narrowDB ⟨⟨2025, 6, 1⟩, ⟨8, 0, 0⟩⟩
     "AC Maintenance" "Dubai Marina" "2025-06-02" "14:00" ⟨2025, 6, 2⟩
     ⟨"SVC007", "AC Maintenance", ["HVAC"], .routine, 120⟩ 14 0
     rfl rfl rfl rfl rfl rfl rfl).1,
   (check_alternatives_per_probe narrowDB ⟨⟨2025, 6, 1⟩, ⟨8, 0, 0⟩⟩
     "AC Maintenance" "Dubai Marina" "2025-06-02" "14:00" ⟨2025, 6, 2⟩
     ⟨"SVC007", "AC Maintenance", ["HVAC"], .routine, 120⟩ 14 0
     rfl rfl rfl rfl rfl rfl rfl).2⟩

end FacAgent
